import Mathlib

/-!
Verification of the grpcerr library (gRPC error construction, detail
attachment and HTTP/JSON transcoding) against its specification.

The embedding models the gRPC substrate (status values, detail payloads,
error wrapping) as inductive data, and translates the library's functions
from `grpc.go` and `http.go`. Go numeric status codes are used directly:
OK=0, Canceled=1, Unknown=2, InvalidArgument=3, DeadlineExceeded=4,
NotFound=5, AlreadyExists=6, PermissionDenied=7, ResourceExhausted=8,
FailedPrecondition=9, Aborted=10, OutOfRange=11, Unimplemented=12,
Internal=13, Unavailable=14, DataLoss=15, Unauthenticated=16.
-/

namespace Grpcerr

/-- Detail payload: additional debugging info (grpc.go `DebugInfo`). -/
structure DebugInfo where
  stackEntries : List String
  detail : String
deriving DecidableEq

/-- Detail payload: request metadata (grpc.go `RequestInfo`). -/
structure RequestInfo where
  requestID : String
  servingData : String
deriving DecidableEq

/-- Detail payload: a documentation link (grpc.go `HelpLink`). -/
structure HelpLink where
  description : String
  url : String
deriving DecidableEq

/-- Detail payload: a localized error message (grpc.go `LocalizedMessage`). -/
structure LocalizedMessage where
  locale : String
  message : String
deriving DecidableEq

/-- Detail payload: a single bad request field (grpc.go `FieldViolation`). -/
structure FieldViolation where
  field : String
  description : String
deriving DecidableEq

/-- Detail payload: a single precondition failure (grpc.go `PreconditionFailure`). -/
structure PreconditionFailure where
  type : String
  subject : String
  description : String
deriving DecidableEq

/-- Detail payload: structured error cause (grpc.go `ErrorInfo`);
the Go map is modelled as an association list. -/
structure ErrorInfo where
  reason : String
  domain : String
  metadata : List (String × String)
deriving DecidableEq

/-- Detail payload: the resource being accessed (grpc.go `ResourceInfo`). -/
structure ResourceInfo where
  resourceType : String
  resourceName : String
  owner : String
  description : String
deriving DecidableEq

/-- Detail payload: a single quota violation (grpc.go `QuotaViolation`). -/
structure QuotaViolation where
  subject : String
  description : String
deriving DecidableEq

/-- A detail attached to a gRPC status: one of the nine
`errdetails` proto shapes the library attaches. -/
inductive Detail where
  | badRequest (fieldViolations : List FieldViolation)
  | preconditionFailure (violations : List PreconditionFailure)
  | errorInfo (info : ErrorInfo)
  | resourceInfo (info : ResourceInfo)
  | quotaFailure (violations : List QuotaViolation)
  | debugInfo (info : DebugInfo)
  | requestInfo (info : RequestInfo)
  | help (links : List HelpLink)
  | localizedMessage (msg : LocalizedMessage)
deriving DecidableEq

/-- A gRPC status value (substrate `status.Status`): numeric code,
message, and ordered attached details. -/
structure Status where
  code : Nat
  message : String
  details : List Detail
deriving DecidableEq

/-- Substrate `status.New`: a status with the given code and message, no details. -/
def statusNew (code : Nat) (message : String) : Status :=
  ⟨code, message, []⟩

/-- Substrate `(*Status).WithDetails`: appends one detail; fails when the
status has code OK (as in grpc-go). -/
def Status.withDetails (st : Status) (d : Detail) : Except String Status :=
  if st.code = 0 then .error "no error details for status with code OK"
  else .ok { st with details := st.details ++ [d] }

/-- Go `error` values relevant to this library: a status-bearing error
(`(*Status).Err()`), a plain error, or a wrapping error
(`fmt.Errorf("...: %w", inner)`). A nil Go error is `Option.none` at use sites. -/
inductive GoErr where
  | statusErr (st : Status)
  | plain (msg : String)
  | wrapped (msg : String) (inner : GoErr)
deriving DecidableEq

/-- Substrate `Error()` string of a Go error (only its existence matters to the
claims: it feeds the Unknown-fallback message of `status.FromError`). -/
def GoErr.errorString : GoErr → String
  | .statusErr st => "rpc error: code = " ++ toString st.code ++ " desc = " ++ st.message
  | .plain msg => msg
  | .wrapped msg inner => msg ++ ": " ++ inner.errorString

/-- Substrate `(*Status).Err()`: nil for code OK, else a status-bearing error. -/
def Status.err (st : Status) : Option GoErr :=
  if st.code = 0 then none else some (.statusErr st)

/-- Substrate nil-receiver semantics of `(*Status).Code()`: nil statuses read as OK. -/
def statusCodeO : Option Status → Nat
  | none => 0
  | some st => st.code

/-- Substrate nil-receiver semantics of `(*Status).Message()`. -/
def statusMessageO : Option Status → String
  | none => ""
  | some st => st.message

/-- Substrate nil-receiver semantics of `(*Status).Details()`. -/
def statusDetailsO : Option Status → List Detail
  | none => []
  | some st => st.details

/-- Substrate `(*Status).WithDetails` called through a possibly-nil pointer:
a nil status reads as code OK and is rejected. -/
def withDetailsO (ost : Option Status) (d : Detail) : Except String Status :=
  match ost with
  | none => .error "no error details for status with code OK"
  | some st => st.withDetails d

/-- Substrate `(*Status).Err()` through a possibly-nil pointer. -/
def statusErrO : Option Status → Option GoErr
  | none => none
  | some st => st.err

/-- Substrate `status.FromError`: nil is accepted as a nil status; an error
carrying a status is unpacked; anything else yields the Unknown fallback
status and `ok = false`. It does not unwrap wrapped errors. -/
def fromError : Option GoErr → Option Status × Bool
  | none => (none, true)
  | some (.statusErr st) => (some st, true)
  | some e => (some (statusNew 2 e.errorString), false)

/-- Substrate `status.Convert`: `FromError` with the ok flag dropped. -/
def convert (e : Option GoErr) : Option Status :=
  (fromError e).1

/-- Public getter `Code` (grpc.go). -/
def Code (gRPCErr : Option GoErr) : Nat :=
  statusCodeO (convert gRPCErr)

/-- Public getter `Message` (grpc.go). -/
def Message (gRPCErr : Option GoErr) : String :=
  statusMessageO (convert gRPCErr)

/-- First detail in the list the extractor matches, else the default: the
shape of every `XxxFrom` accessor loop in grpc.go. -/
def firstSome {α : Type} (f : Detail → Option α) (dflt : α) : List Detail → α
  | [] => dflt
  | d :: rest =>
    match f d with
    | some v => v
    | none => firstSome f dflt rest

/-- Accessor `DebugInfoFrom` (grpc.go): first DebugInfo detail, else zero value. -/
def DebugInfoFrom (gRPCErr : Option GoErr) : DebugInfo :=
  firstSome (fun d => match d with | .debugInfo i => some i | _ => none)
    ⟨[], ""⟩ (statusDetailsO (convert gRPCErr))

/-- Accessor `RequestInfoFrom` (grpc.go). -/
def RequestInfoFrom (gRPCErr : Option GoErr) : RequestInfo :=
  firstSome (fun d => match d with | .requestInfo i => some i | _ => none)
    ⟨"", ""⟩ (statusDetailsO (convert gRPCErr))

/-- Accessor `HelpLinksFrom` (grpc.go): first Help detail's links, else an empty list. -/
def HelpLinksFrom (gRPCErr : Option GoErr) : List HelpLink :=
  firstSome (fun d => match d with | .help links => some links | _ => none)
    [] (statusDetailsO (convert gRPCErr))

/-- Accessor `LocalizedMessageFrom` (grpc.go). -/
def LocalizedMessageFrom (gRPCErr : Option GoErr) : LocalizedMessage :=
  firstSome (fun d => match d with | .localizedMessage m => some m | _ => none)
    ⟨"", ""⟩ (statusDetailsO (convert gRPCErr))

/-- Accessor `FieldViolationsFrom` (grpc.go): first BadRequest detail's
violations, else an empty list. -/
def FieldViolationsFrom (gRPCErr : Option GoErr) : List FieldViolation :=
  firstSome (fun d => match d with | .badRequest fvs => some fvs | _ => none)
    [] (statusDetailsO (convert gRPCErr))

/-- Accessor `PreconditionFailuresFrom` (grpc.go). -/
def PreconditionFailuresFrom (gRPCErr : Option GoErr) : List PreconditionFailure :=
  firstSome (fun d => match d with | .preconditionFailure vs => some vs | _ => none)
    [] (statusDetailsO (convert gRPCErr))

/-- Accessor `ErrorInfoFrom` (grpc.go). -/
def ErrorInfoFrom (gRPCErr : Option GoErr) : ErrorInfo :=
  firstSome (fun d => match d with | .errorInfo i => some i | _ => none)
    ⟨"", "", []⟩ (statusDetailsO (convert gRPCErr))

/-- Accessor `ResourceInfoFrom` (grpc.go). -/
def ResourceInfoFrom (gRPCErr : Option GoErr) : ResourceInfo :=
  firstSome (fun d => match d with | .resourceInfo i => some i | _ => none)
    ⟨"", "", "", ""⟩ (statusDetailsO (convert gRPCErr))

/-- Accessor `QuotaViolationsFrom` (grpc.go). -/
def QuotaViolationsFrom (gRPCErr : Option GoErr) : List QuotaViolation :=
  firstSome (fun d => match d with | .quotaFailure vs => some vs | _ => none)
    [] (statusDetailsO (convert gRPCErr))

/-- Default message constant from grpc.go. -/
def defaultInvalidArgumentErrMsg : String :=
  "Client specified an invalid argument. Check error details for more information."

/-- Default message constant from grpc.go. -/
def defaultOutOfRangeErrMsg : String :=
  "Client specified an invalid range."

/-- Default message constant from grpc.go. -/
def defaultFailedPreconditionErrMsg : String :=
  "Request can not be executed in the current system state, such as deleting a non-empty directory."

/-- Default message constant from grpc.go. -/
def defaultUnauthenticatedErrMsg : String :=
  "Request not authenticated due to missing, invalid, or expired security credentials."

/-- Default message constant from grpc.go. -/
def defaultPermissionDeniedErrMsg : String :=
  "Client does not have sufficient permission. This can happen because the client doesn't have permission, or the API has not been enabled."

/-- Default message constant from grpc.go. -/
def defaultAbortedErrMsg : String :=
  "Concurrency conflict, such as read-modify-write conflict."

/-- Default message constant from grpc.go. -/
def defaultNotFoundErrMsg : String :=
  "A specified resource is not found."

/-- Default message constant from grpc.go. -/
def defaultAlreadyExistsErrMsg : String :=
  "Resource a client tried to create already exists."

/-- Default message constant from grpc.go. -/
def defaultResourceExhaustedErrMsg : String :=
  "Either out of resource quota or reaching rate limiting. The client should look for google.rpc.QuotaFailure error detail for more information."

/-- Default message constant from grpc.go. -/
def defaultCanceledErrMsg : String :=
  "Request cancelled by the client."

/-- Default message constant from grpc.go. -/
def defaultDataLossErrMsg : String :=
  "Unrecoverable data loss or data corruption. The client should report the error to the user."

/-- Default message constant from grpc.go. -/
def defaultUnknownErrMsg : String :=
  "Unknown server error. Typically a server bug."

/-- Default message constant from grpc.go. -/
def defaultInternalErrMsg : String :=
  "Internal server error. Typically a server bug."

/-- Default message constant from grpc.go. -/
def defaultUnimplementedErrMsg : String :=
  "API method not implemented by the server."

/-- Default message constant from grpc.go (declared there but unused). -/
def defaultNotAvailableErrMsg : String :=
  "Network error occurred before reaching the server. Typically a network outage or misconfiguration."

/-- Default message constant from grpc.go. -/
def defaultUnavailableErrMsg : String :=
  "Service unavailable. Typically the server is down."

/-- Default message constant from grpc.go. -/
def defaultDeadlineExceededErrMsg : String :=
  "Request deadline exceeded. This will happen only if the caller sets a deadline that is shorter than the method's default deadline (i.e. requested deadline is not enough for the server to process the request) and the request did not finish within the deadline."

/-- grpc.go `newStatusWithBadRequestDetails`: the Go local `st` stays nil when
the message is empty and the code is neither InvalidArgument nor OutOfRange. -/
def newStatusWithBadRequestDetails (code : Nat) (errMsg : String)
    (fieldViolations : List FieldViolation) : Except String (Option Status) :=
  let st : Option Status :=
    if errMsg = "" then
      if code = 3 then some (statusNew code defaultInvalidArgumentErrMsg)
      else if code = 11 then some (statusNew code defaultOutOfRangeErrMsg)
      else none
    else some (statusNew code errMsg)
  if fieldViolations.length = 0 then .ok st
  else (withDetailsO st (.badRequest fieldViolations)).map some

/-- Constructor `NewInvalidArgument` (grpc.go). -/
def NewInvalidArgument (errMsg : String) (fieldViolations : List FieldViolation) :
    Except String (Option GoErr) :=
  (newStatusWithBadRequestDetails 3 errMsg fieldViolations).map statusErrO

/-- Constructor `NewOutOfRange` (grpc.go). -/
def NewOutOfRange (errMsg : String) (fieldViolations : List FieldViolation) :
    Except String (Option GoErr) :=
  (newStatusWithBadRequestDetails 11 errMsg fieldViolations).map statusErrO

/-- grpc.go `newStatusWithFailedPreconditionDetails`. -/
def newStatusWithFailedPreconditionDetails (code : Nat) (errMsg : String)
    (failures : List PreconditionFailure) : Except String (Option Status) :=
  let st : Option Status :=
    if errMsg = "" then some (statusNew code defaultFailedPreconditionErrMsg)
    else some (statusNew code errMsg)
  if failures.length = 0 then .ok st
  else (withDetailsO st (.preconditionFailure failures)).map some

/-- Constructor `NewFailedPrecondition` (grpc.go). -/
def NewFailedPrecondition (errMsg : String) (failures : List PreconditionFailure) :
    Except String (Option GoErr) :=
  (newStatusWithFailedPreconditionDetails 9 errMsg failures).map statusErrO

/-- grpc.go `newStatusWithErrorInfo`: defaults exist for Unauthenticated,
PermissionDenied and Aborted. -/
def newStatusWithErrorInfo (code : Nat) (errMsg : String)
    (errorInfo : Option ErrorInfo) : Except String (Option Status) :=
  let st : Option Status :=
    if errMsg = "" then
      if code = 16 then some (statusNew code defaultUnauthenticatedErrMsg)
      else if code = 7 then some (statusNew code defaultPermissionDeniedErrMsg)
      else if code = 10 then some (statusNew code defaultAbortedErrMsg)
      else none
    else some (statusNew code errMsg)
  match errorInfo with
  | none => .ok st
  | some info => (withDetailsO st (.errorInfo info)).map some

/-- Constructor `NewUnauthenticated` (grpc.go). -/
def NewUnauthenticated (errMsg : String) (errorInfo : Option ErrorInfo) :
    Except String (Option GoErr) :=
  (newStatusWithErrorInfo 16 errMsg errorInfo).map statusErrO

/-- Constructor `NewPermissionDenied` (grpc.go). -/
def NewPermissionDenied (errMsg : String) (errorInfo : Option ErrorInfo) :
    Except String (Option GoErr) :=
  (newStatusWithErrorInfo 7 errMsg errorInfo).map statusErrO

/-- Constructor `NewAborted` (grpc.go). -/
def NewAborted (errMsg : String) (errorInfo : Option ErrorInfo) :
    Except String (Option GoErr) :=
  (newStatusWithErrorInfo 10 errMsg errorInfo).map statusErrO

/-- grpc.go `newStatusWithResourceInfo`: defaults exist for NotFound and
AlreadyExists. -/
def newStatusWithResourceInfo (code : Nat) (errMsg : String)
    (resourceInfo : Option ResourceInfo) : Except String (Option Status) :=
  let st : Option Status :=
    if errMsg = "" then
      if code = 5 then some (statusNew code defaultNotFoundErrMsg)
      else if code = 6 then some (statusNew code defaultAlreadyExistsErrMsg)
      else none
    else some (statusNew code errMsg)
  match resourceInfo with
  | none => .ok st
  | some info => (withDetailsO st (.resourceInfo info)).map some

/-- Constructor `NewNotFound` (grpc.go). -/
def NewNotFound (errMsg : String) (resourceInfo : Option ResourceInfo) :
    Except String (Option GoErr) :=
  (newStatusWithResourceInfo 5 errMsg resourceInfo).map statusErrO

/-- Constructor `NewAlreadyExists` (grpc.go). -/
def NewAlreadyExists (errMsg : String) (resourceInfo : Option ResourceInfo) :
    Except String (Option GoErr) :=
  (newStatusWithResourceInfo 6 errMsg resourceInfo).map statusErrO

/-- grpc.go `newStatusWithQuotaFailure`. -/
def newStatusWithQuotaFailure (code : Nat) (errMsg : String)
    (violations : List QuotaViolation) : Except String (Option Status) :=
  let st : Option Status :=
    if errMsg = "" then some (statusNew code defaultResourceExhaustedErrMsg)
    else some (statusNew code errMsg)
  if violations.length = 0 then .ok st
  else (withDetailsO st (.quotaFailure violations)).map some

/-- Constructor `NewResourceExhausted` (grpc.go). -/
def NewResourceExhausted (errMsg : String) (quotaViolations : List QuotaViolation) :
    Except String (Option GoErr) :=
  (newStatusWithQuotaFailure 8 errMsg quotaViolations).map statusErrO

/-- Constructor `NewCancelled` (grpc.go): no details, single return value. -/
def NewCancelled (errMsg : String) : Option GoErr :=
  (if errMsg = "" then statusNew 1 defaultCanceledErrMsg
   else statusNew 1 errMsg).err

/-- Constructor `NewDataLoss` (grpc.go). The empty-message branch of the source
reads `status.New(codes.DataLoss, defaultCanceledErrMsg)` — it uses the
Cancelled default message, not `defaultDataLossErrMsg`. -/
def NewDataLoss (errMsg : String) (debugInfo : Option DebugInfo) :
    Except String (Option GoErr) :=
  let st : Status :=
    if errMsg = "" then statusNew 15 defaultCanceledErrMsg
    else statusNew 15 errMsg
  match debugInfo with
  | none => .ok st.err
  | some info => (st.withDetails (.debugInfo info)).map Status.err

/-- grpc.go `newStatusWithDebugInfo`: defaults exist for DataLoss, Unknown,
Internal, Unavailable and DeadlineExceeded. -/
def newStatusWithDebugInfo (code : Nat) (errMsg : String)
    (debugInfo : Option DebugInfo) : Except String (Option Status) :=
  let st : Option Status :=
    if errMsg = "" then
      if code = 15 then some (statusNew code defaultDataLossErrMsg)
      else if code = 2 then some (statusNew code defaultUnknownErrMsg)
      else if code = 13 then some (statusNew code defaultInternalErrMsg)
      else if code = 14 then some (statusNew code defaultUnavailableErrMsg)
      else if code = 4 then some (statusNew code defaultDeadlineExceededErrMsg)
      else none
    else some (statusNew code errMsg)
  match debugInfo with
  | none => .ok st
  | some info => (withDetailsO st (.debugInfo info)).map some

/-- Constructor `NewUnknown` (grpc.go). -/
def NewUnknown (errMsg : String) (debugInfo : Option DebugInfo) :
    Except String (Option GoErr) :=
  (newStatusWithDebugInfo 2 errMsg debugInfo).map statusErrO

/-- Constructor `NewInternal` (grpc.go). -/
def NewInternal (errMsg : String) (debugInfo : Option DebugInfo) :
    Except String (Option GoErr) :=
  (newStatusWithDebugInfo 13 errMsg debugInfo).map statusErrO

/-- Constructor `NewUnimplemented` (grpc.go): no details, single return value. -/
def NewUnimplemented (errMsg : String) : Option GoErr :=
  (if errMsg = "" then statusNew 12 defaultUnimplementedErrMsg
   else statusNew 12 errMsg).err

/-- Constructor `NewUnavailable` (grpc.go). -/
def NewUnavailable (errMsg : String) (debugInfo : Option DebugInfo) :
    Except String (Option GoErr) :=
  (newStatusWithDebugInfo 14 errMsg debugInfo).map statusErrO

/-- Constructor `NewDeadlineExceeded` (grpc.go). -/
def NewDeadlineExceeded (errMsg : String) (debugInfo : Option DebugInfo) :
    Except String (Option GoErr) :=
  (newStatusWithDebugInfo 4 errMsg debugInfo).map statusErrO

/-- Helper `AddDebugInfo` (grpc.go): nil payload is a no-op; a non-status
error is rejected; otherwise the detail is attached to a fresh error. -/
def AddDebugInfo (gRPCErr : Option GoErr) (debugInfo : Option DebugInfo) :
    Except String (Option GoErr) :=
  match debugInfo with
  | none => .ok gRPCErr
  | some info =>
    match fromError gRPCErr with
    | (_, false) => .error "invalid argument: gRPCErr must hold a status.Error struct"
    | (ost, true) => (withDetailsO ost (.debugInfo info)).map Status.err

/-- Helper `AddRequestInfo` (grpc.go). -/
def AddRequestInfo (gRPCErr : Option GoErr) (requestInfo : Option RequestInfo) :
    Except String (Option GoErr) :=
  match requestInfo with
  | none => .ok gRPCErr
  | some info =>
    match fromError gRPCErr with
    | (_, false) => .error "invalid argument: gRPCErr must hold a status.Error struct"
    | (ost, true) => (withDetailsO ost (.requestInfo info)).map Status.err

/-- Helper `AddHelp` (grpc.go): an empty link list is a no-op. -/
def AddHelp (gRPCErr : Option GoErr) (links : List HelpLink) :
    Except String (Option GoErr) :=
  if links.length = 0 then .ok gRPCErr
  else
    match fromError gRPCErr with
    | (_, false) => .error "invalid argument: gRPCErr must hold a status.Error struct"
    | (ost, true) => (withDetailsO ost (.help links)).map Status.err

/-- Helper `AddLocalizedMessage` (grpc.go). -/
def AddLocalizedMessage (gRPCErr : Option GoErr) (localizedMsg : Option LocalizedMessage) :
    Except String (Option GoErr) :=
  match localizedMsg with
  | none => .ok gRPCErr
  | some msg =>
    match fromError gRPCErr with
    | (_, false) => .error "invalid argument: gRPCErr must hold a status.Error struct"
    | (ost, true) => (withDetailsO ost (.localizedMessage msg)).map Status.err

/-- Substrate JSON string escaping (quote and backslash; enough for the
modelled wire format). -/
def escapeJSONString (s : String) : String :=
  s.foldl
    (fun acc c =>
      if c = '"' then acc ++ "\\\""
      else if c = '\\' then acc ++ "\\\\"
      else acc.push c)
    ""

/-- A JSON string literal. -/
def jsonStr (s : String) : String :=
  "\"" ++ escapeJSONString s ++ "\""

/-- A JSON key-value pair. -/
def jsonKV (k v : String) : String :=
  jsonStr k ++ ":" ++ v

/-- A JSON array from rendered elements. -/
def jsonArr (elems : List String) : String :=
  "[" ++ String.intercalate "," elems ++ "]"

/-- A JSON object from rendered key-value pairs. -/
def jsonObj (fields : List String) : String :=
  "\x7b" ++ String.intercalate "," fields ++ "\x7d"

/-- Wire rendering of one attached detail, with its `@type` URL, mirroring the
protojson output shapes seen in http_test.go. -/
def renderDetail : Detail → String
  | .badRequest fvs =>
    jsonObj [jsonKV "@type" (jsonStr "type.googleapis.com/google.rpc.BadRequest"),
      jsonKV "fieldViolations" (jsonArr (fvs.map (fun fv =>
        jsonObj [jsonKV "field" (jsonStr fv.field),
          jsonKV "description" (jsonStr fv.description)])))]
  | .preconditionFailure vs =>
    jsonObj [jsonKV "@type" (jsonStr "type.googleapis.com/google.rpc.PreconditionFailure"),
      jsonKV "violations" (jsonArr (vs.map (fun v =>
        jsonObj [jsonKV "type" (jsonStr v.type), jsonKV "subject" (jsonStr v.subject),
          jsonKV "description" (jsonStr v.description)])))]
  | .errorInfo i =>
    jsonObj [jsonKV "@type" (jsonStr "type.googleapis.com/google.rpc.ErrorInfo"),
      jsonKV "reason" (jsonStr i.reason), jsonKV "domain" (jsonStr i.domain),
      jsonKV "metadata" (jsonObj (i.metadata.map (fun p => jsonKV p.1 (jsonStr p.2))))]
  | .resourceInfo i =>
    jsonObj [jsonKV "@type" (jsonStr "type.googleapis.com/google.rpc.ResourceInfo"),
      jsonKV "resourceType" (jsonStr i.resourceType),
      jsonKV "resourceName" (jsonStr i.resourceName),
      jsonKV "owner" (jsonStr i.owner), jsonKV "description" (jsonStr i.description)]
  | .quotaFailure vs =>
    jsonObj [jsonKV "@type" (jsonStr "type.googleapis.com/google.rpc.QuotaFailure"),
      jsonKV "violations" (jsonArr (vs.map (fun v =>
        jsonObj [jsonKV "subject" (jsonStr v.subject),
          jsonKV "description" (jsonStr v.description)])))]
  | .debugInfo i =>
    jsonObj [jsonKV "@type" (jsonStr "type.googleapis.com/google.rpc.DebugInfo"),
      jsonKV "stackEntries" (jsonArr (i.stackEntries.map jsonStr)),
      jsonKV "detail" (jsonStr i.detail)]
  | .requestInfo i =>
    jsonObj [jsonKV "@type" (jsonStr "type.googleapis.com/google.rpc.RequestInfo"),
      jsonKV "requestId" (jsonStr i.requestID),
      jsonKV "servingData" (jsonStr i.servingData)]
  | .help links =>
    jsonObj [jsonKV "@type" (jsonStr "type.googleapis.com/google.rpc.Help"),
      jsonKV "links" (jsonArr (links.map (fun l =>
        jsonObj [jsonKV "description" (jsonStr l.description),
          jsonKV "url" (jsonStr l.url)])))]
  | .localizedMessage m =>
    jsonObj [jsonKV "@type" (jsonStr "type.googleapis.com/google.rpc.LocalizedMessage"),
      jsonKV "locale" (jsonStr m.locale), jsonKV "message" (jsonStr m.message)]

/-- Wire rendering of a status: `code`, `message`, and `details` omitted
entirely when no detail was attached (protojson omits empty repeated fields). -/
def renderStatusJSON (st : Status) : String :=
  jsonObj
    ([jsonKV "code" (toString st.code), jsonKV "message" (jsonStr st.message)] ++
      (if st.details.isEmpty then []
       else [jsonKV "details" (jsonArr (st.details.map renderDetail))]))

/-- grpc.go `jsonBytesFromGrpcStatus`: protojson marshalling of the status
proto. On the embedded value space the modelled marshaller always succeeds;
the encoder below is parametrized over the serializer so that the source's
failure branch remains statable. -/
def jsonBytesFromGrpcStatus (status : Status) : Except String String :=
  .ok (renderStatusJSON status)

/-- The output sink (http.ResponseWriter as exercised through
httptest.ResponseRecorder): headers, an effectively write-once status code,
and accumulated body bytes. -/
structure RespWriter where
  headers : List (String × String)
  statusCode : Option Nat
  body : String
deriving DecidableEq

/-- A fresh response recorder. -/
def RespWriter.init : RespWriter :=
  ⟨[], none, ""⟩

/-- Substrate `Header().Set`: replaces the value of an existing header name,
else appends the pair. -/
def headerSet (hs : List (String × String)) (k v : String) : List (String × String) :=
  if hs.any (fun p => p.1 == k) then
    hs.map (fun p => if p.1 == k then (k, v) else p)
  else hs ++ [(k, v)]

/-- Substrate `Header().Get`: first value for the name, else the empty string. -/
def headerGet (hs : List (String × String)) (k : String) : String :=
  match hs.find? (fun p => p.1 == k) with
  | some p => p.2
  | none => ""

/-- Header mutation on the sink. -/
def RespWriter.setHeader (w : RespWriter) (k v : String) : RespWriter :=
  { w with headers := headerSet w.headers k v }

/-- Substrate `WriteHeader`: the first written status code wins; later calls
are no-ops. -/
def RespWriter.writeHeader (w : RespWriter) (code : Nat) : RespWriter :=
  match w.statusCode with
  | some _ => w
  | none => { w with statusCode := some code }

/-- Substrate `Write`: an implicit 200 status if none was written yet, then
append the bytes. -/
def RespWriter.write (w : RespWriter) (s : String) : RespWriter :=
  let w' := w.writeHeader 200
  { w' with body := w'.body ++ s }

/-- http.go `ResponseWriterOption`: a caller-supplied sink mutation. -/
def ResponseWriterOption : Type :=
  RespWriter → RespWriter

/-- http.go `httpStatusCodeFrom`: the taxonomy-to-HTTP status table. -/
def httpStatusCodeFrom (st : Status) : Nat :=
  if st.code = 10 ∨ st.code = 6 then 409
  else if st.code = 15 ∨ st.code = 2 ∨ st.code = 13 then 500
  else if st.code = 3 ∨ st.code = 9 ∨ st.code = 11 then 400
  else if st.code = 16 then 401
  else if st.code = 7 then 403
  else if st.code = 5 then 404
  else if st.code = 8 then 429
  else if st.code = 1 then 499
  else if st.code = 12 then 501
  else if st.code = 14 then 503
  else if st.code = 4 then 504
  else 500

/-- http.go `(*httpResponseEncoder).AsJSON`, with the serializer call site
made an explicit parameter: nil status and serializer failure both write 500
with an empty body and return a failure; otherwise the default Content-Type is
set, the caller options run in order, the mapped status code is written, and
the JSON body follows. -/
def asJSONWith (ser : Status → Except String String) (st : Option Status)
    (w : RespWriter) (opts : List ResponseWriterOption) : RespWriter × Option String :=
  match st with
  | none => ((w.writeHeader 500).write "", some "invalid argument: status was nil")
  | some st =>
    match ser st with
    | .error e =>
      ((w.writeHeader 500).write "",
        some ("could not get JSON as bytes from gRPC status: " ++ e))
    | .ok json =>
      let w1 := w.setHeader "Content-Type" "application/json"
      let w2 := opts.foldl (fun acc opt => opt acc) w1
      let w3 := w2.writeHeader (httpStatusCodeFrom st)
      (w3.write json, none)

/-- http.go `AsJSON` with its actual serializer `jsonBytesFromGrpcStatus`. -/
def AsJSON (st : Option Status) (w : RespWriter)
    (opts : List ResponseWriterOption) : RespWriter × Option String :=
  asJSONWith jsonBytesFromGrpcStatus st w opts

/-- Modelled from the spec: the Root-Cause Resolver of §4.5, whose source is
not under src (http_test.go exercises it through the error-based encoder):
repeatedly take the next inner error until none exists. -/
def rootError : GoErr → GoErr
  | .wrapped _ inner => rootError inner
  | .statusErr st => .statusErr st
  | .plain msg => .plain msg

/-- Modelled from the spec: the success-or-capability-failure tail of the
error-based encoder (§4.6 steps 3-9) applied to an already-resolved root. -/
def encodeRoot (root : GoErr) (w : RespWriter)
    (opts : List ResponseWriterOption) : RespWriter × Option String :=
  match fromError (some root) with
  | (some st, true) =>
    match jsonBytesFromGrpcStatus st with
    | .error e =>
      ((w.writeHeader 500).write "",
        some ("could not get JSON as bytes from gRPC status: " ++ e))
    | .ok json =>
      let w1 := w.setHeader "Content-Type" "application/json"
      let w2 := opts.foldl (fun acc opt => opt acc) w1
      let w3 := w2.writeHeader (httpStatusCodeFrom st)
      (w3.write json, none)
  | _ =>
    ((w.writeHeader 500).write "",
      some "invalid argument: gRPCErr's root error must have the GRPCStatus() method")

/-- Modelled from the spec: the error-based `AsJSON` of §4.6 (the encoder
taking a possibly wrapped Go error, as exercised by http_test.go; its source
is not under src): nil in, 500 and a failure out; otherwise resolve the root
cause and encode it. -/
def asJSONErr (gRPCErr : Option GoErr) (w : RespWriter)
    (opts : List ResponseWriterOption) : RespWriter × Option String :=
  match gRPCErr with
  | none => ((w.writeHeader 500).write "", some "invalid argument: gRPCErr was nil")
  | some e => encodeRoot (rootError e) w opts

/-- An n-deep wrap chain: each listed context message wraps the next level,
innermost last (`fmt.Errorf("ctx: %w", inner)` repeated). -/
def wrapChain (msgs : List String) (e : GoErr) : GoErr :=
  msgs.foldr .wrapped e

/-- Appending to the empty string is the identity. -/
theorem empty_string_append (s : String) : "" ++ s = s := by
  cases s
  rfl

/-- The root of a wrap chain is the root of its innermost error. -/
theorem rootError_wrapChain (msgs : List String) (e : GoErr) :
    rootError (wrapChain msgs e) = rootError e := by
  induction msgs with
  | nil => rfl
  | cons m rest ih =>
    simp only [wrapChain, List.foldr_cons, rootError] at *
    exact ih

/-- C1: the status-code mapper sends each of the taxonomy kinds to exactly the
HTTP code of the spec's table (Aborted and AlreadyExists to 409; DataLoss,
Unknown and Internal to 500; InvalidArgument, FailedPrecondition and OutOfRange
to 400; Unauthenticated to 401; PermissionDenied to 403; NotFound to 404;
ResourceExhausted to 429; Cancelled to 499; Unimplemented to 501; Unavailable
to 503; DeadlineExceeded to 504), and every numeric kind outside that
enumeration — including OK — to 500. -/
theorem httpStatusCodeFrom_table (msg : String) (ds : List Detail) :
    (httpStatusCodeFrom ⟨10, msg, ds⟩ = 409 ∧ httpStatusCodeFrom ⟨6, msg, ds⟩ = 409 ∧
      httpStatusCodeFrom ⟨15, msg, ds⟩ = 500 ∧ httpStatusCodeFrom ⟨2, msg, ds⟩ = 500 ∧
      httpStatusCodeFrom ⟨13, msg, ds⟩ = 500 ∧ httpStatusCodeFrom ⟨3, msg, ds⟩ = 400 ∧
      httpStatusCodeFrom ⟨9, msg, ds⟩ = 400 ∧ httpStatusCodeFrom ⟨11, msg, ds⟩ = 400 ∧
      httpStatusCodeFrom ⟨16, msg, ds⟩ = 401 ∧ httpStatusCodeFrom ⟨7, msg, ds⟩ = 403 ∧
      httpStatusCodeFrom ⟨5, msg, ds⟩ = 404 ∧ httpStatusCodeFrom ⟨8, msg, ds⟩ = 429 ∧
      httpStatusCodeFrom ⟨1, msg, ds⟩ = 499 ∧ httpStatusCodeFrom ⟨12, msg, ds⟩ = 501 ∧
      httpStatusCodeFrom ⟨14, msg, ds⟩ = 503 ∧ httpStatusCodeFrom ⟨4, msg, ds⟩ = 504) ∧
    ∀ c : Nat, c ∉ ([1, 2, 3, 4, 5, 6, 7, 8, 9, 10, 11, 12, 13, 14, 15, 16] : List Nat) →
      httpStatusCodeFrom ⟨c, msg, ds⟩ = 500 := by
  constructor
  · exact ⟨rfl, rfl, rfl, rfl, rfl, rfl, rfl, rfl, rfl, rfl, rfl, rfl, rfl, rfl, rfl, rfl⟩
  · intro c hc
    simp only [List.mem_cons, List.not_mem_nil, or_false, not_or] at hc
    obtain ⟨h1, h2, h3, h4, h5, h6, h7, h8, h9, h10, h11, h12, h13, h14, h15, h16⟩ := hc
    simp [httpStatusCodeFrom, h1, h2, h3, h4, h5, h6, h7, h8, h9, h10, h11, h12, h13,
      h14, h15, h16]

/-- C1 witness: the mapper at the out-of-taxonomy kind 9999 returns 500. -/
theorem httpStatusCodeFrom_table_witness :
    (9999 : Nat) ∉ ([1, 2, 3, 4, 5, 6, 7, 8, 9, 10, 11, 12, 13, 14, 15, 16] : List Nat) ∧
      httpStatusCodeFrom ⟨9999, "m", []⟩ = 500 :=
  ⟨by decide, (httpStatusCodeFrom_table "m" []).2 9999 (by decide)⟩

/-- C3: encoding a canonical error wrapped under any chain of context messages
writes the identical response (status code, headers and JSON body) and returns
the identical outcome as encoding the unwrapped error directly. -/
theorem encode_wrap_transparent (st : Status) (msgs : List String) (w : RespWriter)
    (opts : List ResponseWriterOption) :
    asJSONErr (some (wrapChain msgs (.statusErr st))) w opts =
      asJSONErr (some (.statusErr st)) w opts := by
  simp only [asJSONErr, rootError_wrapChain]

/-- C4: the status encoder invoked on a nil status writes status 500 and an
empty body to a fresh response writer, touches no headers, and returns the
nil-argument failure. -/
theorem asJSON_nil_status (opts : List ResponseWriterOption) :
    AsJSON none RespWriter.init opts =
      (⟨[], some 500, ""⟩, some "invalid argument: status was nil") :=
  rfl

/-- C7: each detail-attachment helper with a nil payload (an empty link list
for AddHelp) returns its input error unchanged and no failure. -/
theorem add_helpers_nil_payload_noop (e : Option GoErr) :
    AddDebugInfo e none = .ok e ∧ AddRequestInfo e none = .ok e ∧
      AddHelp e [] = .ok e ∧ AddLocalizedMessage e none = .ok e :=
  ⟨rfl, rfl, rfl, rfl⟩

/-- C10: a nil error normalizes to a nil (OK) status — Code gives 0 and
Message the empty string — while the Unknown code 2 arises exactly for non-nil
errors that do not carry a status, and a status-bearing error keeps its code. -/
theorem nil_error_getters :
    Code none = 0 ∧ Message none = "" ∧ convert none = none ∧
      (∀ m : String, Code (some (.plain m)) = 2) ∧
      (∀ (m : String) (g : GoErr), Code (some (.wrapped m g)) = 2) ∧
      ∀ st : Status, Code (some (.statusErr st)) = st.code :=
  ⟨rfl, rfl, rfl, fun _ => rfl, fun _ _ => rfl, fun _ => rfl⟩

/-- C5: caller options run after the default Content-Type and before the
status write: with an option replacing Content-Type by
"dummy-content-type-value" and an option writing status 200, any status
encodes to exactly that content type and status 200 — not the kind-derived
code — while the body is still the status's serialized JSON; and an option
that reads Content-Type observes the already-set default. -/
theorem asJSON_options_override (st : Status) :
    AsJSON (some st) RespWriter.init
        [fun w => w.setHeader "Content-Type" "dummy-content-type-value",
          fun w => w.writeHeader 200] =
      (⟨[("Content-Type", "dummy-content-type-value")], some 200, renderStatusJSON st⟩,
        none) ∧
    (AsJSON (some st) RespWriter.init
        [fun w => w.setHeader "X-Observed" (headerGet w.headers "Content-Type")]).1.headers =
      [("Content-Type", "application/json"), ("X-Observed", "application/json")] := by
  constructor
  · simp [AsJSON, asJSONWith, jsonBytesFromGrpcStatus, RespWriter.init, RespWriter.setHeader,
      headerSet, RespWriter.writeHeader, RespWriter.write, empty_string_append]
  · rfl

/-- C8: for any serializer run inside the encoder, if serialization of the
status fails then the encoder writes status 500 and an empty body to a fresh
writer, sets no header, and returns the failure wrapped with context. -/
theorem asJSON_serialization_failure (ser : Status → Except String String) (st : Status)
    (opts : List ResponseWriterOption) (e : String) (h : ser st = .error e) :
    asJSONWith ser (some st) RespWriter.init opts =
      (⟨[], some 500, ""⟩,
        some ("could not get JSON as bytes from gRPC status: " ++ e)) := by
  simp only [asJSONWith, h]
  rfl

/-- C8 witness: a serializer failing with "boom" on a concrete status. -/
theorem asJSON_serialization_failure_witness :
    (fun _ : Status => (Except.error "boom" : Except String String)) (statusNew 12 "m") =
        Except.error "boom" ∧
      asJSONWith (fun _ => Except.error "boom") (some (statusNew 12 "m")) RespWriter.init [] =
        (⟨[], some 500, ""⟩,
          some ("could not get JSON as bytes from gRPC status: " ++ "boom")) :=
  ⟨rfl, asJSON_serialization_failure _ (statusNew 12 "m") [] "boom" rfl⟩

/-- C2 counterexample: NewDataLoss with an empty message yields the Cancelled
default message, not the spec table's DataLoss string, and the code's
DeadlineExceeded default is a longer wording than the spec table's string. -/
theorem constructor_defaults_counterexample :
    (NewDataLoss "" none).map Message = .ok "Request cancelled by the client." ∧
      ("Request cancelled by the client." : String) ≠
        "Unrecoverable data loss or data corruption. The client should report the error to the user." ∧
      (NewDeadlineExceeded "" none).map Message =
        .ok "Request deadline exceeded. This will happen only if the caller sets a deadline that is shorter than the method's default deadline (i.e. requested deadline is not enough for the server to process the request) and the request did not finish within the deadline." ∧
      ("Request deadline exceeded. This will happen only if the caller sets a deadline that is shorter than the method's default deadline (i.e. requested deadline is not enough for the server to process the request) and the request did not finish within the deadline." : String) ≠
        "Request deadline exceeded. This will happen only if the caller sets a deadline shorter than the method's default deadline and the request did not finish in time." :=
  ⟨rfl, by decide, rfl, by decide⟩

/-- Message of a bad-request construction with a non-empty message. -/
theorem message_newBadRequest (code : Nat) (m : String) (fvs : List FieldViolation)
    (h : m ≠ "") (hc : code ≠ 0) :
    ((newStatusWithBadRequestDetails code m fvs).map statusErrO).map Message = .ok m := by
  cases fvs <;>
    simp [newStatusWithBadRequestDetails, h, hc, withDetailsO, Status.withDetails,
      statusNew, statusErrO, Status.err, Message, convert, fromError, statusMessageO,
      Except.map]

/-- Message of a failed-precondition construction with a non-empty message. -/
theorem message_newFailedPrecondition (code : Nat) (m : String)
    (pfs : List PreconditionFailure) (h : m ≠ "") (hc : code ≠ 0) :
    ((newStatusWithFailedPreconditionDetails code m pfs).map statusErrO).map Message =
      .ok m := by
  cases pfs <;>
    simp [newStatusWithFailedPreconditionDetails, h, hc, withDetailsO, Status.withDetails,
      statusNew, statusErrO, Status.err, Message, convert, fromError, statusMessageO,
      Except.map]

/-- Message of an error-info construction with a non-empty message. -/
theorem message_newErrorInfo (code : Nat) (m : String) (info : Option ErrorInfo)
    (h : m ≠ "") (hc : code ≠ 0) :
    ((newStatusWithErrorInfo code m info).map statusErrO).map Message = .ok m := by
  cases info <;>
    simp [newStatusWithErrorInfo, h, hc, withDetailsO, Status.withDetails,
      statusNew, statusErrO, Status.err, Message, convert, fromError, statusMessageO,
      Except.map]

/-- Message of a resource-info construction with a non-empty message. -/
theorem message_newResourceInfo (code : Nat) (m : String) (info : Option ResourceInfo)
    (h : m ≠ "") (hc : code ≠ 0) :
    ((newStatusWithResourceInfo code m info).map statusErrO).map Message = .ok m := by
  cases info <;>
    simp [newStatusWithResourceInfo, h, hc, withDetailsO, Status.withDetails,
      statusNew, statusErrO, Status.err, Message, convert, fromError, statusMessageO,
      Except.map]

/-- Message of a quota-failure construction with a non-empty message. -/
theorem message_newQuotaFailure (code : Nat) (m : String) (vs : List QuotaViolation)
    (h : m ≠ "") (hc : code ≠ 0) :
    ((newStatusWithQuotaFailure code m vs).map statusErrO).map Message = .ok m := by
  cases vs <;>
    simp [newStatusWithQuotaFailure, h, hc, withDetailsO, Status.withDetails,
      statusNew, statusErrO, Status.err, Message, convert, fromError, statusMessageO,
      Except.map]

/-- Message of a debug-info construction with a non-empty message. -/
theorem message_newDebugInfo (code : Nat) (m : String) (di : Option DebugInfo)
    (h : m ≠ "") (hc : code ≠ 0) :
    ((newStatusWithDebugInfo code m di).map statusErrO).map Message = .ok m := by
  cases di <;>
    simp [newStatusWithDebugInfo, h, hc, withDetailsO, Status.withDetails,
      statusNew, statusErrO, Status.err, Message, convert, fromError, statusMessageO,
      Except.map]

/-- Message of NewDataLoss with a non-empty message. -/
theorem message_newDataLoss (m : String) (di : Option DebugInfo) (h : m ≠ "") :
    (NewDataLoss m di).map Message = .ok m := by
  cases di <;>
    simp [NewDataLoss, h, Status.withDetails, statusNew, Status.err, Message,
      convert, fromError, statusMessageO, Except.map]

/-- C2 amended: every constructor called with the empty message yields the
per-kind default string of the source — which matches the spec's table for
every kind except that NewDataLoss yields the Cancelled default
"Request cancelled by the client." and DeadlineExceeded's default is the
longer wording below — and every constructor called with a non-empty message
yields that message verbatim. -/
theorem constructor_default_messages :
    ((∀ fvs, (NewInvalidArgument "" fvs).map Message =
        .ok "Client specified an invalid argument. Check error details for more information.") ∧
      (∀ fvs, (NewOutOfRange "" fvs).map Message =
        .ok "Client specified an invalid range.") ∧
      (∀ pfs, (NewFailedPrecondition "" pfs).map Message =
        .ok "Request can not be executed in the current system state, such as deleting a non-empty directory.") ∧
      (∀ info, (NewUnauthenticated "" info).map Message =
        .ok "Request not authenticated due to missing, invalid, or expired security credentials.") ∧
      (∀ info, (NewPermissionDenied "" info).map Message =
        .ok "Client does not have sufficient permission. This can happen because the client doesn't have permission, or the API has not been enabled.") ∧
      (∀ info, (NewAborted "" info).map Message =
        .ok "Concurrency conflict, such as read-modify-write conflict.") ∧
      (∀ ri, (NewNotFound "" ri).map Message =
        .ok "A specified resource is not found.") ∧
      (∀ ri, (NewAlreadyExists "" ri).map Message =
        .ok "Resource a client tried to create already exists.") ∧
      (∀ qvs, (NewResourceExhausted "" qvs).map Message =
        .ok "Either out of resource quota or reaching rate limiting. The client should look for google.rpc.QuotaFailure error detail for more information.") ∧
      Message (NewCancelled "") = "Request cancelled by the client." ∧
      (∀ di, (NewDataLoss "" di).map Message =
        .ok "Request cancelled by the client.") ∧
      (∀ di, (NewUnknown "" di).map Message =
        .ok "Unknown server error. Typically a server bug.") ∧
      (∀ di, (NewInternal "" di).map Message =
        .ok "Internal server error. Typically a server bug.") ∧
      Message (NewUnimplemented "") = "API method not implemented by the server." ∧
      (∀ di, (NewUnavailable "" di).map Message =
        .ok "Service unavailable. Typically the server is down.") ∧
      (∀ di, (NewDeadlineExceeded "" di).map Message =
        .ok "Request deadline exceeded. This will happen only if the caller sets a deadline that is shorter than the method's default deadline (i.e. requested deadline is not enough for the server to process the request) and the request did not finish within the deadline.")) ∧
    ∀ m : String, m ≠ "" →
      (∀ fvs, (NewInvalidArgument m fvs).map Message = .ok m) ∧
      (∀ fvs, (NewOutOfRange m fvs).map Message = .ok m) ∧
      (∀ pfs, (NewFailedPrecondition m pfs).map Message = .ok m) ∧
      (∀ info, (NewUnauthenticated m info).map Message = .ok m) ∧
      (∀ info, (NewPermissionDenied m info).map Message = .ok m) ∧
      (∀ info, (NewAborted m info).map Message = .ok m) ∧
      (∀ ri, (NewNotFound m ri).map Message = .ok m) ∧
      (∀ ri, (NewAlreadyExists m ri).map Message = .ok m) ∧
      (∀ qvs, (NewResourceExhausted m qvs).map Message = .ok m) ∧
      Message (NewCancelled m) = m ∧
      (∀ di, (NewDataLoss m di).map Message = .ok m) ∧
      (∀ di, (NewUnknown m di).map Message = .ok m) ∧
      (∀ di, (NewInternal m di).map Message = .ok m) ∧
      Message (NewUnimplemented m) = m ∧
      (∀ di, (NewUnavailable m di).map Message = .ok m) ∧
      (∀ di, (NewDeadlineExceeded m di).map Message = .ok m) := by
  constructor
  · exact ⟨fun fvs => by cases fvs <;> rfl, fun fvs => by cases fvs <;> rfl,
      fun pfs => by cases pfs <;> rfl, fun info => by cases info <;> rfl,
      fun info => by cases info <;> rfl, fun info => by cases info <;> rfl,
      fun ri => by cases ri <;> rfl, fun ri => by cases ri <;> rfl,
      fun qvs => by cases qvs <;> rfl, rfl, fun di => by cases di <;> rfl,
      fun di => by cases di <;> rfl, fun di => by cases di <;> rfl, rfl,
      fun di => by cases di <;> rfl, fun di => by cases di <;> rfl⟩
  · intro m h
    refine ⟨fun fvs => message_newBadRequest 3 m fvs h (by decide),
      fun fvs => message_newBadRequest 11 m fvs h (by decide),
      fun pfs => message_newFailedPrecondition 9 m pfs h (by decide),
      fun info => message_newErrorInfo 16 m info h (by decide),
      fun info => message_newErrorInfo 7 m info h (by decide),
      fun info => message_newErrorInfo 10 m info h (by decide),
      fun ri => message_newResourceInfo 5 m ri h (by decide),
      fun ri => message_newResourceInfo 6 m ri h (by decide),
      fun qvs => message_newQuotaFailure 8 m qvs h (by decide),
      ?_,
      fun di => message_newDataLoss m di h,
      fun di => message_newDebugInfo 2 m di h (by decide),
      fun di => message_newDebugInfo 13 m di h (by decide),
      ?_,
      fun di => message_newDebugInfo 14 m di h (by decide),
      fun di => message_newDebugInfo 4 m di h (by decide)⟩
    · simp [NewCancelled, h, statusNew, Status.err, Message, convert, fromError,
        statusMessageO]
    · simp [NewUnimplemented, h, statusNew, Status.err, Message, convert, fromError,
        statusMessageO]

/-- C2 amended witness: a non-empty message comes back verbatim. -/
theorem constructor_default_messages_witness :
    ("x" : String) ≠ "" ∧ (NewInvalidArgument "x" []).map Message = .ok "x" :=
  ⟨by decide, (constructor_default_messages.2 "x" (by decide)).1 []⟩

/-- If the extractor matches nothing in the list, the scan returns the default. -/
theorem firstSome_of_forall_none {α : Type} (f : Detail → Option α) (dflt : α)
    (ds : List Detail) (h : ∀ d ∈ ds, f d = none) : firstSome f dflt ds = dflt := by
  induction ds with
  | nil => rfl
  | cons d rest ih =>
    have hd : f d = none := h d (by simp)
    simp only [firstSome, hd]
    exact ih fun x hx => h x (by simp [hx])

/-- The scan returns the default or the value of some member of the list. -/
theorem firstSome_default_or_mem {α : Type} (f : Detail → Option α) (dflt : α)
    (ds : List Detail) :
    firstSome f dflt ds = dflt ∨ ∃ d ∈ ds, f d = some (firstSome f dflt ds) := by
  induction ds with
  | nil => exact Or.inl rfl
  | cons d rest ih =>
    cases hfd : f d with
    | some v =>
      right
      exact ⟨d, by simp, by simp [firstSome, hfd]⟩
    | none =>
      cases ih with
      | inl h0 =>
        left
        simp [firstSome, hfd, h0]
      | inr h1 =>
        right
        obtain ⟨d0, hd0, hf0⟩ := h1
        exact ⟨d0, by simp [hd0], by simp [firstSome, hfd, hf0]⟩

/-- The debug-info scan yields the zero value or a value drawn from the list. -/
theorem debug_first_or_mem (ds : List Detail) :
    firstSome (fun d => match d with | .debugInfo i => some i | _ => none)
        (⟨[], ""⟩ : DebugInfo) ds = ⟨[], ""⟩ ∨
      Detail.debugInfo (firstSome
        (fun d => match d with | .debugInfo i => some i | _ => none)
        (⟨[], ""⟩ : DebugInfo) ds) ∈ ds := by
  rcases firstSome_default_or_mem
      (fun d => match d with | .debugInfo i => some i | _ => none) ⟨[], ""⟩ ds with
    h | ⟨d, hd, hf⟩
  · exact Or.inl h
  · right
    cases d
    case debugInfo i =>
      have h2 : i = _ := Option.some.inj hf
      exact h2 ▸ hd
    all_goals exact Option.noConfusion hf

/-- The request-info scan yields the zero value or a value drawn from the list. -/
theorem request_first_or_mem (ds : List Detail) :
    firstSome (fun d => match d with | .requestInfo i => some i | _ => none)
        (⟨"", ""⟩ : RequestInfo) ds = ⟨"", ""⟩ ∨
      Detail.requestInfo (firstSome
        (fun d => match d with | .requestInfo i => some i | _ => none)
        (⟨"", ""⟩ : RequestInfo) ds) ∈ ds := by
  rcases firstSome_default_or_mem
      (fun d => match d with | .requestInfo i => some i | _ => none) ⟨"", ""⟩ ds with
    h | ⟨d, hd, hf⟩
  · exact Or.inl h
  · right
    cases d
    case requestInfo i =>
      have h2 : i = _ := Option.some.inj hf
      exact h2 ▸ hd
    all_goals exact Option.noConfusion hf

/-- The help-links scan yields the empty list or a value drawn from the list. -/
theorem help_first_or_mem (ds : List Detail) :
    firstSome (fun d => match d with | .help links => some links | _ => none)
        ([] : List HelpLink) ds = [] ∨
      Detail.help (firstSome
        (fun d => match d with | .help links => some links | _ => none)
        ([] : List HelpLink) ds) ∈ ds := by
  rcases firstSome_default_or_mem
      (fun d => match d with | .help links => some links | _ => none) [] ds with
    h | ⟨d, hd, hf⟩
  · exact Or.inl h
  · right
    cases d
    case help links =>
      have h2 : links = _ := Option.some.inj hf
      exact h2 ▸ hd
    all_goals exact Option.noConfusion hf

/-- The localized-message scan yields the zero value or a value drawn from the list. -/
theorem localized_first_or_mem (ds : List Detail) :
    firstSome (fun d => match d with | .localizedMessage m => some m | _ => none)
        (⟨"", ""⟩ : LocalizedMessage) ds = ⟨"", ""⟩ ∨
      Detail.localizedMessage (firstSome
        (fun d => match d with | .localizedMessage m => some m | _ => none)
        (⟨"", ""⟩ : LocalizedMessage) ds) ∈ ds := by
  rcases firstSome_default_or_mem
      (fun d => match d with | .localizedMessage m => some m | _ => none) ⟨"", ""⟩ ds with
    h | ⟨d, hd, hf⟩
  · exact Or.inl h
  · right
    cases d
    case localizedMessage m =>
      have h2 : m = _ := Option.some.inj hf
      exact h2 ▸ hd
    all_goals exact Option.noConfusion hf

/-- The field-violations scan yields the empty list or a value drawn from the list. -/
theorem badRequest_first_or_mem (ds : List Detail) :
    firstSome (fun d => match d with | .badRequest fvs => some fvs | _ => none)
        ([] : List FieldViolation) ds = [] ∨
      Detail.badRequest (firstSome
        (fun d => match d with | .badRequest fvs => some fvs | _ => none)
        ([] : List FieldViolation) ds) ∈ ds := by
  rcases firstSome_default_or_mem
      (fun d => match d with | .badRequest fvs => some fvs | _ => none) [] ds with
    h | ⟨d, hd, hf⟩
  · exact Or.inl h
  · right
    cases d
    case badRequest fvs =>
      have h2 : fvs = _ := Option.some.inj hf
      exact h2 ▸ hd
    all_goals exact Option.noConfusion hf

/-- The precondition-failures scan yields the empty list or a value drawn from the list. -/
theorem precondition_first_or_mem (ds : List Detail) :
    firstSome (fun d => match d with | .preconditionFailure vs => some vs | _ => none)
        ([] : List PreconditionFailure) ds = [] ∨
      Detail.preconditionFailure (firstSome
        (fun d => match d with | .preconditionFailure vs => some vs | _ => none)
        ([] : List PreconditionFailure) ds) ∈ ds := by
  rcases firstSome_default_or_mem
      (fun d => match d with | .preconditionFailure vs => some vs | _ => none) [] ds with
    h | ⟨d, hd, hf⟩
  · exact Or.inl h
  · right
    cases d
    case preconditionFailure vs =>
      have h2 : vs = _ := Option.some.inj hf
      exact h2 ▸ hd
    all_goals exact Option.noConfusion hf

/-- The error-info scan yields the zero value or a value drawn from the list. -/
theorem errorInfo_first_or_mem (ds : List Detail) :
    firstSome (fun d => match d with | .errorInfo i => some i | _ => none)
        (⟨"", "", []⟩ : ErrorInfo) ds = ⟨"", "", []⟩ ∨
      Detail.errorInfo (firstSome
        (fun d => match d with | .errorInfo i => some i | _ => none)
        (⟨"", "", []⟩ : ErrorInfo) ds) ∈ ds := by
  rcases firstSome_default_or_mem
      (fun d => match d with | .errorInfo i => some i | _ => none) ⟨"", "", []⟩ ds with
    h | ⟨d, hd, hf⟩
  · exact Or.inl h
  · right
    cases d
    case errorInfo i =>
      have h2 : i = _ := Option.some.inj hf
      exact h2 ▸ hd
    all_goals exact Option.noConfusion hf

/-- The resource-info scan yields the zero value or a value drawn from the list. -/
theorem resourceInfo_first_or_mem (ds : List Detail) :
    firstSome (fun d => match d with | .resourceInfo i => some i | _ => none)
        (⟨"", "", "", ""⟩ : ResourceInfo) ds = ⟨"", "", "", ""⟩ ∨
      Detail.resourceInfo (firstSome
        (fun d => match d with | .resourceInfo i => some i | _ => none)
        (⟨"", "", "", ""⟩ : ResourceInfo) ds) ∈ ds := by
  rcases firstSome_default_or_mem
      (fun d => match d with | .resourceInfo i => some i | _ => none) ⟨"", "", "", ""⟩ ds with
    h | ⟨d, hd, hf⟩
  · exact Or.inl h
  · right
    cases d
    case resourceInfo i =>
      have h2 : i = _ := Option.some.inj hf
      exact h2 ▸ hd
    all_goals exact Option.noConfusion hf

/-- The quota-violations scan yields the empty list or a value drawn from the list. -/
theorem quota_first_or_mem (ds : List Detail) :
    firstSome (fun d => match d with | .quotaFailure vs => some vs | _ => none)
        ([] : List QuotaViolation) ds = [] ∨
      Detail.quotaFailure (firstSome
        (fun d => match d with | .quotaFailure vs => some vs | _ => none)
        ([] : List QuotaViolation) ds) ∈ ds := by
  rcases firstSome_default_or_mem
      (fun d => match d with | .quotaFailure vs => some vs | _ => none) [] ds with
    h | ⟨d, hd, hf⟩
  · exact Or.inl h
  · right
    cases d
    case quotaFailure vs =>
      have h2 : vs = _ := Option.some.inj hf
      exact h2 ▸ hd
    all_goals exact Option.noConfusion hf

/-- C6: an error constructed (or extended) with a non-nil, non-empty detail
payload gives that payload back, deep-equal, through the payload's accessor;
and any error whose status carries no detail of a payload's type gives that
payload's zero value (the empty list for list-valued payloads). -/
theorem detail_round_trip :
    (∀ m ri, (NewNotFound m (some ri)).map ResourceInfoFrom = .ok ri) ∧
    (∀ m info, (NewUnauthenticated m (some info)).map ErrorInfoFrom = .ok info) ∧
    (∀ m di, (NewDataLoss m (some di)).map DebugInfoFrom = .ok di) ∧
    (∀ m fvs, fvs ≠ [] → (NewInvalidArgument m fvs).map FieldViolationsFrom = .ok fvs) ∧
    (∀ m pfs, pfs ≠ [] →
      (NewFailedPrecondition m pfs).map PreconditionFailuresFrom = .ok pfs) ∧
    (∀ m qvs, qvs ≠ [] →
      (NewResourceExhausted m qvs).map QuotaViolationsFrom = .ok qvs) ∧
    (∀ m links, links ≠ [] →
      (AddHelp (NewUnimplemented m) links).map HelpLinksFrom = .ok links) ∧
    (∀ m ri, (AddRequestInfo (NewUnimplemented m) (some ri)).map RequestInfoFrom = .ok ri) ∧
    (∀ m lm, (AddLocalizedMessage (NewUnimplemented m) (some lm)).map LocalizedMessageFrom =
      .ok lm) ∧
    (∀ e, (∀ i, Detail.resourceInfo i ∉ statusDetailsO (convert e)) →
      ResourceInfoFrom e = ⟨"", "", "", ""⟩) ∧
    (∀ e, (∀ i, Detail.errorInfo i ∉ statusDetailsO (convert e)) →
      ErrorInfoFrom e = ⟨"", "", []⟩) ∧
    (∀ e, (∀ i, Detail.debugInfo i ∉ statusDetailsO (convert e)) →
      DebugInfoFrom e = ⟨[], ""⟩) ∧
    (∀ e, (∀ fvs, Detail.badRequest fvs ∉ statusDetailsO (convert e)) →
      FieldViolationsFrom e = []) ∧
    (∀ e, (∀ vs, Detail.preconditionFailure vs ∉ statusDetailsO (convert e)) →
      PreconditionFailuresFrom e = []) ∧
    (∀ e, (∀ vs, Detail.quotaFailure vs ∉ statusDetailsO (convert e)) →
      QuotaViolationsFrom e = []) ∧
    (∀ e, (∀ links, Detail.help links ∉ statusDetailsO (convert e)) →
      HelpLinksFrom e = []) ∧
    (∀ e, (∀ i, Detail.requestInfo i ∉ statusDetailsO (convert e)) →
      RequestInfoFrom e = ⟨"", ""⟩) ∧
    (∀ e, (∀ m, Detail.localizedMessage m ∉ statusDetailsO (convert e)) →
      LocalizedMessageFrom e = ⟨"", ""⟩) := by
  refine ⟨?_, ?_, ?_, ?_, ?_, ?_, ?_, ?_, ?_, ?_, ?_, ?_, ?_, ?_, ?_, ?_, ?_, ?_⟩
  · intro m ri
    by_cases hm : m = "" <;>
      simp [NewNotFound, newStatusWithResourceInfo, hm, withDetailsO, Status.withDetails,
        statusNew, statusErrO, Status.err, ResourceInfoFrom, convert, fromError,
        statusDetailsO, firstSome, Except.map]
  · intro m info
    by_cases hm : m = "" <;>
      simp [NewUnauthenticated, newStatusWithErrorInfo, hm, withDetailsO, Status.withDetails,
        statusNew, statusErrO, Status.err, ErrorInfoFrom, convert, fromError,
        statusDetailsO, firstSome, Except.map]
  · intro m di
    by_cases hm : m = "" <;>
      simp [NewDataLoss, hm, Status.withDetails, statusNew, Status.err, DebugInfoFrom,
        convert, fromError, statusDetailsO, firstSome, Except.map]
  · intro m fvs hfvs
    cases fvs with
    | nil => exact absurd rfl hfvs
    | cons a l =>
      by_cases hm : m = "" <;>
        simp [NewInvalidArgument, newStatusWithBadRequestDetails, hm, withDetailsO,
          Status.withDetails, statusNew, statusErrO, Status.err, FieldViolationsFrom,
          convert, fromError, statusDetailsO, firstSome, Except.map]
  · intro m pfs hpfs
    cases pfs with
    | nil => exact absurd rfl hpfs
    | cons a l =>
      by_cases hm : m = "" <;>
        simp [NewFailedPrecondition, newStatusWithFailedPreconditionDetails, hm,
          withDetailsO, Status.withDetails, statusNew, statusErrO, Status.err,
          PreconditionFailuresFrom, convert, fromError, statusDetailsO, firstSome,
          Except.map]
  · intro m qvs hqvs
    cases qvs with
    | nil => exact absurd rfl hqvs
    | cons a l =>
      by_cases hm : m = "" <;>
        simp [NewResourceExhausted, newStatusWithQuotaFailure, hm, withDetailsO,
          Status.withDetails, statusNew, statusErrO, Status.err, QuotaViolationsFrom,
          convert, fromError, statusDetailsO, firstSome, Except.map]
  · intro m links hl
    cases links with
    | nil => exact absurd rfl hl
    | cons a l =>
      by_cases hm : m = "" <;>
        simp [AddHelp, NewUnimplemented, hm, fromError, withDetailsO, Status.withDetails,
          statusNew, Status.err, HelpLinksFrom, convert, statusDetailsO, firstSome,
          Except.map]
  · intro m ri
    by_cases hm : m = "" <;>
      simp [AddRequestInfo, NewUnimplemented, hm, fromError, withDetailsO,
        Status.withDetails, statusNew, Status.err, RequestInfoFrom, convert,
        statusDetailsO, firstSome, Except.map]
  · intro m lm
    by_cases hm : m = "" <;>
      simp [AddLocalizedMessage, NewUnimplemented, hm, fromError, withDetailsO,
        Status.withDetails, statusNew, Status.err, LocalizedMessageFrom, convert,
        statusDetailsO, firstSome, Except.map]
  · intro e he
    apply firstSome_of_forall_none
    intro d hd
    cases d
    case resourceInfo i => exact absurd hd (he i)
    all_goals rfl
  · intro e he
    apply firstSome_of_forall_none
    intro d hd
    cases d
    case errorInfo i => exact absurd hd (he i)
    all_goals rfl
  · intro e he
    apply firstSome_of_forall_none
    intro d hd
    cases d
    case debugInfo i => exact absurd hd (he i)
    all_goals rfl
  · intro e he
    apply firstSome_of_forall_none
    intro d hd
    cases d
    case badRequest fvs => exact absurd hd (he fvs)
    all_goals rfl
  · intro e he
    apply firstSome_of_forall_none
    intro d hd
    cases d
    case preconditionFailure vs => exact absurd hd (he vs)
    all_goals rfl
  · intro e he
    apply firstSome_of_forall_none
    intro d hd
    cases d
    case quotaFailure vs => exact absurd hd (he vs)
    all_goals rfl
  · intro e he
    apply firstSome_of_forall_none
    intro d hd
    cases d
    case help links => exact absurd hd (he links)
    all_goals rfl
  · intro e he
    apply firstSome_of_forall_none
    intro d hd
    cases d
    case requestInfo i => exact absurd hd (he i)
    all_goals rfl
  · intro e he
    apply firstSome_of_forall_none
    intro d hd
    cases d
    case localizedMessage m => exact absurd hd (he m)
    all_goals rfl

/-- C6 witness: a concrete field-violation round trip, and the zero value on
an error carrying no resource-info detail. -/
theorem detail_round_trip_witness :
    ([(⟨"f", "d"⟩ : FieldViolation)] ≠ []) ∧
      (NewInvalidArgument "m" [⟨"f", "d"⟩]).map FieldViolationsFrom = .ok [⟨"f", "d"⟩] ∧
      (∀ i, Detail.resourceInfo i ∉ statusDetailsO (convert (NewCancelled "x"))) ∧
      ResourceInfoFrom (NewCancelled "x") = ⟨"", "", "", ""⟩ := by
  refine ⟨by decide, detail_round_trip.2.2.2.1 "m" [⟨"f", "d"⟩] (by decide), ?_, ?_⟩
  · intro i hx
    exact List.not_mem_nil _ hx
  · exact detail_round_trip.2.2.2.2.2.2.2.2.2.1 (NewCancelled "x")
      (fun i hx => List.not_mem_nil _ hx)

/-- C9: every detail accessor is total and returns a value of its payload
type on every input class: the zero value on a nil error, on a plain
non-status error, and on any wrapped error (the status conversion of a
wrapped error is the detail-less Unknown fallback), and on a status-bearing
error either the zero value or a payload drawn from the status's own details
— no failure and no partial case exists. -/
theorem accessors_total_behavior :
    (DebugInfoFrom none = ⟨[], ""⟩ ∧ RequestInfoFrom none = ⟨"", ""⟩ ∧
      HelpLinksFrom none = [] ∧ LocalizedMessageFrom none = ⟨"", ""⟩ ∧
      FieldViolationsFrom none = [] ∧ PreconditionFailuresFrom none = [] ∧
      ErrorInfoFrom none = ⟨"", "", []⟩ ∧ ResourceInfoFrom none = ⟨"", "", "", ""⟩ ∧
      QuotaViolationsFrom none = []) ∧
    (∀ m : String,
      DebugInfoFrom (some (.plain m)) = ⟨[], ""⟩ ∧
      RequestInfoFrom (some (.plain m)) = ⟨"", ""⟩ ∧
      HelpLinksFrom (some (.plain m)) = [] ∧
      LocalizedMessageFrom (some (.plain m)) = ⟨"", ""⟩ ∧
      FieldViolationsFrom (some (.plain m)) = [] ∧
      PreconditionFailuresFrom (some (.plain m)) = [] ∧
      ErrorInfoFrom (some (.plain m)) = ⟨"", "", []⟩ ∧
      ResourceInfoFrom (some (.plain m)) = ⟨"", "", "", ""⟩ ∧
      QuotaViolationsFrom (some (.plain m)) = []) ∧
    (∀ (m : String) (g : GoErr),
      DebugInfoFrom (some (.wrapped m g)) = ⟨[], ""⟩ ∧
      RequestInfoFrom (some (.wrapped m g)) = ⟨"", ""⟩ ∧
      HelpLinksFrom (some (.wrapped m g)) = [] ∧
      LocalizedMessageFrom (some (.wrapped m g)) = ⟨"", ""⟩ ∧
      FieldViolationsFrom (some (.wrapped m g)) = [] ∧
      PreconditionFailuresFrom (some (.wrapped m g)) = [] ∧
      ErrorInfoFrom (some (.wrapped m g)) = ⟨"", "", []⟩ ∧
      ResourceInfoFrom (some (.wrapped m g)) = ⟨"", "", "", ""⟩ ∧
      QuotaViolationsFrom (some (.wrapped m g)) = []) ∧
    ∀ st : Status,
      (DebugInfoFrom (some (.statusErr st)) = ⟨[], ""⟩ ∨
        Detail.debugInfo (DebugInfoFrom (some (.statusErr st))) ∈ st.details) ∧
      (RequestInfoFrom (some (.statusErr st)) = ⟨"", ""⟩ ∨
        Detail.requestInfo (RequestInfoFrom (some (.statusErr st))) ∈ st.details) ∧
      (HelpLinksFrom (some (.statusErr st)) = [] ∨
        Detail.help (HelpLinksFrom (some (.statusErr st))) ∈ st.details) ∧
      (LocalizedMessageFrom (some (.statusErr st)) = ⟨"", ""⟩ ∨
        Detail.localizedMessage (LocalizedMessageFrom (some (.statusErr st))) ∈ st.details) ∧
      (FieldViolationsFrom (some (.statusErr st)) = [] ∨
        Detail.badRequest (FieldViolationsFrom (some (.statusErr st))) ∈ st.details) ∧
      (PreconditionFailuresFrom (some (.statusErr st)) = [] ∨
        Detail.preconditionFailure (PreconditionFailuresFrom (some (.statusErr st))) ∈
          st.details) ∧
      (ErrorInfoFrom (some (.statusErr st)) = ⟨"", "", []⟩ ∨
        Detail.errorInfo (ErrorInfoFrom (some (.statusErr st))) ∈ st.details) ∧
      (ResourceInfoFrom (some (.statusErr st)) = ⟨"", "", "", ""⟩ ∨
        Detail.resourceInfo (ResourceInfoFrom (some (.statusErr st))) ∈ st.details) ∧
      (QuotaViolationsFrom (some (.statusErr st)) = [] ∨
        Detail.quotaFailure (QuotaViolationsFrom (some (.statusErr st))) ∈ st.details) :=
  ⟨⟨rfl, rfl, rfl, rfl, rfl, rfl, rfl, rfl, rfl⟩,
    fun _ => ⟨rfl, rfl, rfl, rfl, rfl, rfl, rfl, rfl, rfl⟩,
    fun _ _ => ⟨rfl, rfl, rfl, rfl, rfl, rfl, rfl, rfl, rfl⟩,
    fun st => ⟨debug_first_or_mem st.details, request_first_or_mem st.details,
      help_first_or_mem st.details, localized_first_or_mem st.details,
      badRequest_first_or_mem st.details, precondition_first_or_mem st.details,
      errorInfo_first_or_mem st.details, resourceInfo_first_or_mem st.details,
      quota_first_or_mem st.details⟩⟩

end Grpcerr
